import Mathlib

/-!
Verification of the Agentic-Judges media-judging pipeline
(`src/unnamed/part_005`, second revision of the route handler: the
`extractAudio` that spawns ffmpeg directly, the `judgeContent` that
clamps the LLM score, and the `POST` handler with its `finally` cleanup).

External effects (form parsing, the filesystem, the ffmpeg subprocess,
the Groq transcription and chat services, the Supabase insert and the
host's `JSON.parse`) are modelled as oracle inputs in a `World`
structure; the handler itself becomes a pure function from a `World`
to a `RunResult` describing the HTTP response, which temp files exist
once the handler has returned, and which external steps were invoked.
-/

/-- JavaScript values as they can appear in the fields of the object
returned by `JSON.parse` on the judge completion.  `undef` stands for a
missing field (`parsed.score` on an object without a `score` key).
Nested objects and arrays are not needed by any property below. -/
inductive JVal where
  | num (n : Int)
  | str (s : String)
  | boolean (b : Bool)
  | null
  | undef
deriving DecidableEq, Repr

/-- JavaScript truthiness of a `JVal` (`0`, `""`, `false`, `null` and
`undefined` are falsy). -/
def jsTruthy : JVal → Bool
  | .num n => n != 0
  | .str s => s != ""
  | .boolean b => b
  | .null => false
  | .undef => false

/-- Accumulate the leading decimal digits of a character list onto `acc`,
stopping at the first non-digit. -/
def takeDigitsAcc : Nat → List Char → Nat
  | acc, [] => acc
  | acc, c :: cs =>
    if c.isDigit then takeDigitsAcc (10 * acc + (c.toNat - 48)) cs else acc

/-- Leading-integer parse of a character list: optional sign followed by
at least one decimal digit; anything else is `none` (JavaScript `NaN`). -/
def jsParseIntChars : List Char → Option Int
  | [] => none
  | c :: cs =>
    if c = '-' then
      match cs with
      | [] => none
      | d :: ds =>
        if d.isDigit then some (-(Int.ofNat (takeDigitsAcc (d.toNat - 48) ds))) else none
    else if c = '+' then
      match cs with
      | [] => none
      | d :: ds =>
        if d.isDigit then some (Int.ofNat (takeDigitsAcc (d.toNat - 48) ds)) else none
    else if c.isDigit then some (Int.ofNat (takeDigitsAcc (c.toNat - 48) cs))
    else none

/-- JavaScript `parseInt` on a string (no radix argument): skip leading
whitespace, then parse an optionally signed run of decimal digits,
truncating at the first other character; `none` models `NaN`. The
`0x` hexadecimal prefix of the real builtin is not modelled (no value
in this development uses it). -/
def jsParseIntStr (s : String) : Option Int :=
  jsParseIntChars (s.data.dropWhile Char.isWhitespace)

/-- JavaScript `String.prototype.trim`: drop whitespace from both ends
(written over the character list so that it evaluates in the kernel). -/
def jsTrim (s : String) : String :=
  ⟨((s.data.dropWhile Char.isWhitespace).reverse.dropWhile Char.isWhitespace).reverse⟩

/-- JavaScript `parseInt(v)` for a field value: a number converts via its
decimal string (an integer round-trips), while `true`, `null` and
`undefined` all stringify to digit-free text and give `NaN`. -/
def jsParseInt : JVal → Option Int
  | .num n => some n
  | .str s => jsParseIntStr s
  | .boolean _ => none
  | .null => none
  | .undef => none

/-- JavaScript `x || d` after `parseInt`: `NaN` (here `none`) and `0` are
falsy and fall through to the default. -/
def jsOrInt (r : Option Int) (d : Int) : Int :=
  match r with
  | none => d
  | some n => if n = 0 then d else n

/-- `Math.min(100, Math.max(1, n))` from the source. -/
def clampScore (n : Int) : Int := min 100 (max 1 n)

/-- The object shape `judgeContent` reads off the parsed completion:
`parsed.score` and `parsed.feedback` (each `undef` when the key is
absent). -/
structure ParsedJudge where
  score : JVal
  feedback : JVal
deriving DecidableEq, Repr

/-- The `{ feedback, score }` pair `judgeContent` resolves with. -/
structure JudgeResult where
  feedback : JVal
  score : Int
deriving DecidableEq, Repr

/-- Fallback feedback text from the source. -/
def noFeedbackMsg : String := "No feedback generated."

/-- `response.choices[0]?.message?.content || "\x7b\x7d"`: a missing or
empty completion content falls back to the literal two-character
object text. -/
def contentOf (c : Option String) : String :=
  match c with
  | none => "\x7b\x7d"
  | some s => if s = "" then "\x7b\x7d" else s

/-- `judgeContent`'s parsing policy (`src/unnamed/part_005`, lines
350–359), with the host `JSON.parse` passed in as `jsonParse`
(returning `none` where the real call throws): on a successful parse
the feedback is `parsed.feedback || "No feedback generated."` and the
score is `Math.min(100, Math.max(1, parseInt(parsed.score) || 50))`;
when parsing throws, the raw content becomes the feedback with
score 50. -/
def judgeContent (jsonParse : String → Option ParsedJudge) (content : String) :
    JudgeResult :=
  match jsonParse content with
  | some parsed =>
      { feedback := if jsTruthy parsed.feedback then parsed.feedback else .str noFeedbackMsg
        score := clampScore (jsOrInt (jsParseInt parsed.score) 50) }
  | none => { feedback := .str content, score := 50 }

/-- Does `sub` occur at the head of `l`? -/
def charsHasPre : List Char → List Char → Bool
  | [], _ => true
  | _ :: _, [] => false
  | a :: as, b :: bs => a == b && charsHasPre as bs

/-- Does `sub` occur anywhere inside `l`? -/
def charsHasSub : List Char → List Char → Bool
  | [], sub => sub.isEmpty
  | c :: t, sub => charsHasPre sub (c :: t) || charsHasSub t sub

/-- JavaScript `s.includes(sub)`: substring containment. -/
def strIncludes (s sub : String) : Bool :=
  charsHasSub s.data sub.data

/-- The stderr marker the source tests for a missing audio stream. -/
def noAudioMarker : String := "Output file does not contain any stream"

/-- The distinguished no-audio-track rejection message. -/
def noAudioTrackMsg : String :=
  "No audio track found in the video. Please upload a video with sound."

/-- The generic rejection message `ffmpeg exited with code CODE: STDERR`
built by the source's template literal. -/
def ffmpegExitMsg (code : Int) (stderr : String) : String :=
  "ffmpeg exited with code " ++ toString code ++ ": " ++ stderr

/-- How the ffmpeg subprocess run ends: either the spawn itself fails
(the process `error` event fires with `msg`), or the process exits
with `code`, having written `stderr` to its diagnostic stream. -/
inductive ExtractOutcome where
  | spawnFail (msg : String)
  | exited (code : Int) (stderr : String)
deriving DecidableEq, Repr

/-- `extractAudio` (`src/unnamed/part_005`, lines 244–296) as a function
from the subprocess outcome to the promise's resolution: exit code 0
resolves; a non-zero exit rejects with the distinguished no-audio
message when stderr contains the marker and with the generic
code-and-stderr message otherwise; a spawn failure rejects with the
spawn error itself. -/
def extractAudio (o : ExtractOutcome) : Except String Unit :=
  match o with
  | .spawnFail msg => .error msg
  | .exited code stderr =>
      if code = 0 then .ok ()
      else if strIncludes stderr noAudioMarker then .error noAudioTrackMsg
      else .error (ffmpegExitMsg code stderr)

example : jsParseIntStr "abc" = none := by decide
example : jsParseIntStr "72.9" = some 72 := by decide
example : jsParseIntStr "-5" = some (-5) := by decide
example :
    judgeContent (fun _ => some ⟨.num 150, .str "x"⟩) "c" = ⟨.str "x", 100⟩ := by decide
example :
    judgeContent (fun _ => none) "plain text response" =
      ⟨.str "plain text response", 50⟩ := by decide
example :
    (judgeContent (fun _ => some ⟨.num 0, .str "x"⟩) "c").score = 50 := by decide
example :
    extractAudio (.exited 1 "... Output file does not contain any stream ...") =
      .error noAudioTrackMsg := rfl
example :
    extractAudio (.exited 1 "boom") = .error "ffmpeg exited with code 1: boom" := rfl

/-- The uploaded `File` as validation sees it: name, byte size and
declared MIME type (the raw bytes never influence control flow). -/
structure UploadedFile where
  name : String
  size : Nat
  type : String
deriving DecidableEq, Repr

/-- Every external effect of one `POST` run, fixed up front as oracles:
the form-data parse (`.error` = the `await request.formData()` call
throws), the generated UUID, the video `writeFile`, the ffmpeg
outcome, the transcription call, the judging chat call (`.ok`
carries `response.choices[0]?.message?.content`), the host
`JSON.parse` (as a function, `none` = throws), the Supabase insert
error, whether each `unlink` succeeds on an existing file, and the
`new Date().toISOString()` timestamp. -/
structure World where
  formData : Except String (Option UploadedFile)
  uuid : String
  writeVideo : Except String Unit
  extract : ExtractOutcome
  transcribe : Except String String
  judgeChat : Except String (Option String)
  jsonParse : String → Option ParsedJudge
  dbError : Option String
  unlinkVideoOk : Bool
  unlinkAudioOk : Bool
  now : String

/-- The record the success path persists and returns. -/
structure Judgment where
  id : String
  video_filename : String
  transcript : String
  feedback : JVal
  score : Int
  created_at : String
deriving DecidableEq, Repr

/-- A JSON response body: `\x7berror: msg\x7d` or the judgment record. -/
inductive RespBody where
  | errMsg (msg : String)
  | judgment (j : Judgment)
deriving DecidableEq, Repr

/-- An HTTP response: status code plus JSON body. -/
structure Response where
  status : Nat
  body : RespBody
deriving DecidableEq, Repr

/-- State at the end of the handler's `try`/`catch`, before the
`finally` block runs: the response about to be returned, the two
path variables (`""` until step 2 assigns them), which temp files
exist on disk, and which external steps were invoked. -/
structure TryResult where
  response : Response
  videoPath : String
  audioPath : String
  videoExists : Bool
  audioExists : Bool
  extractInvoked : Bool
  transcribeInvoked : Bool
  judgeInvoked : Bool
deriving DecidableEq, Repr

/-- Observable outcome of a whole `POST` run, after `finally`. -/
structure RunResult where
  response : Response
  videoFileExists : Bool
  audioFileExists : Bool
  videoEverCreated : Bool
  audioEverCreated : Bool
  extractInvoked : Bool
  transcribeInvoked : Bool
  judgeInvoked : Bool
  unlinkVideoAttempted : Bool
  unlinkAudioAttempted : Bool
deriving DecidableEq, Repr

/-- The accepted MIME types from the source. -/
def validTypes : List String :=
  ["video/mp4", "video/webm", "video/quicktime", "video/x-msvideo", "video/x-matroska"]

/-- `50 * 1024 * 1024` from the source's size check. -/
def maxSize : Nat := 50 * 1024 * 1024

/-- `file.name.split(".").pop() || "mp4"`. -/
def jsExt (name : String) : String :=
  let l := (name.splitOn ".").getLastD ""
  if l = "" then "mp4" else l

/-- The `catch` block of `POST` (lines 441–452): messages mentioning the
no-audio or no-speech conditions map to 422, everything else to a
wrapped 500. -/
def catchResponse (errMsg : String) : Response :=
  if strIncludes errMsg "No audio track found" || strIncludes errMsg "No speech detected" then
    { status := 422, body := .errMsg errMsg }
  else
    { status := 500, body := .errMsg ("Failed to process video: " ++ errMsg) }

/-- The no-speech error thrown at line 424. -/
def noSpeechMsg : String := "No speech detected in video."

/-- Steps 2–7 of the handler (`src/unnamed/part_005`, lines 402–439),
reached only after validation passed for file `f`: assign the temp
paths in the working directory, save the video, extract audio,
transcribe, throw on empty or whitespace-only speech, judge, insert
into Supabase (an insert error is logged only), and build the 200
response; every rejection routes through `catchResponse`. -/
def runSaved (w : World) (f : UploadedFile) : TryResult :=
  let vp := w.uuid ++ "." ++ jsExt f.name
  let ap := w.uuid ++ ".wav"
  match w.writeVideo with
  | .error msg =>
      { response := catchResponse msg, videoPath := vp, audioPath := ap,
        videoExists := false, audioExists := false,
        extractInvoked := false, transcribeInvoked := false, judgeInvoked := false }
  | .ok _ =>
    match extractAudio w.extract with
    | .error msg =>
        { response := catchResponse msg, videoPath := vp, audioPath := ap,
          videoExists := true, audioExists := false,
          extractInvoked := true, transcribeInvoked := false, judgeInvoked := false }
    | .ok _ =>
      match w.transcribe with
      | .error msg =>
          { response := catchResponse msg, videoPath := vp, audioPath := ap,
            videoExists := true, audioExists := true,
            extractInvoked := true, transcribeInvoked := true, judgeInvoked := false }
      | .ok t =>
        if jsTrim t = "" then
          { response := catchResponse noSpeechMsg, videoPath := vp, audioPath := ap,
            videoExists := true, audioExists := true,
            extractInvoked := true, transcribeInvoked := true, judgeInvoked := false }
        else
          match w.judgeChat with
          | .error msg =>
              { response := catchResponse msg, videoPath := vp, audioPath := ap,
                videoExists := true, audioExists := true,
                extractInvoked := true, transcribeInvoked := true, judgeInvoked := true }
          | .ok c =>
            let r := judgeContent w.jsonParse (contentOf c)
            let resp : Response :=
              { status := 200,
                body := .judgment
                  { id := w.uuid, video_filename := f.name, transcript := jsTrim t,
                    feedback := r.feedback, score := r.score, created_at := w.now } }
            match w.dbError with
            | some _ =>
                { response := resp, videoPath := vp, audioPath := ap,
                  videoExists := true, audioExists := true,
                  extractInvoked := true, transcribeInvoked := true, judgeInvoked := true }
            | none =>
                { response := resp, videoPath := vp, audioPath := ap,
                  videoExists := true, audioExists := true,
                  extractInvoked := true, transcribeInvoked := true, judgeInvoked := true }

/-- The `try` body of `POST` (lines 366–452): form parsing and the
three validation gates in source order (missing file, size, type),
then `runSaved`. -/
def runTry (w : World) : TryResult :=
  match w.formData with
  | .error msg =>
      { response := catchResponse msg, videoPath := "", audioPath := "",
        videoExists := false, audioExists := false,
        extractInvoked := false, transcribeInvoked := false, judgeInvoked := false }
  | .ok none =>
      { response := { status := 400, body := .errMsg "No video file provided" },
        videoPath := "", audioPath := "",
        videoExists := false, audioExists := false,
        extractInvoked := false, transcribeInvoked := false, judgeInvoked := false }
  | .ok (some f) =>
      if f.size > maxSize then
        { response := { status := 400, body := .errMsg "File too large. Maximum size is 50MB." },
          videoPath := "", audioPath := "",
          videoExists := false, audioExists := false,
          extractInvoked := false, transcribeInvoked := false, judgeInvoked := false }
      else if validTypes.contains f.type = false then
        { response :=
            { status := 400,
              body := .errMsg "Invalid file type. Please upload an MP4, WebM, MOV, AVI, or MKV file." },
          videoPath := "", audioPath := "",
          videoExists := false, audioExists := false,
          extractInvoked := false, transcribeInvoked := false, judgeInvoked := false }
      else runSaved w f

/-- The `finally` block (lines 453–458): both unlinks share one
`try`/`catch`, video first.  `unlink` on a path throws when the file
is missing or the removal fails, so a throw on the video path skips
the audio unlink; every throw is swallowed and the response built in
the `try`/`catch` is returned untouched. -/
def runFinally (w : World) (t : TryResult) : RunResult :=
  if t.videoPath = "" then
    { response := t.response, videoFileExists := t.videoExists,
      audioFileExists := t.audioExists,
      videoEverCreated := t.videoExists, audioEverCreated := t.audioExists,
      extractInvoked := t.extractInvoked, transcribeInvoked := t.transcribeInvoked,
      judgeInvoked := t.judgeInvoked,
      unlinkVideoAttempted := false, unlinkAudioAttempted := false }
  else if t.videoExists && w.unlinkVideoOk then
    if t.audioPath = "" then
      { response := t.response, videoFileExists := false,
        audioFileExists := t.audioExists,
        videoEverCreated := t.videoExists, audioEverCreated := t.audioExists,
        extractInvoked := t.extractInvoked, transcribeInvoked := t.transcribeInvoked,
        judgeInvoked := t.judgeInvoked,
        unlinkVideoAttempted := true, unlinkAudioAttempted := false }
    else
      { response := t.response, videoFileExists := false,
        audioFileExists := t.audioExists && !w.unlinkAudioOk,
        videoEverCreated := t.videoExists, audioEverCreated := t.audioExists,
        extractInvoked := t.extractInvoked, transcribeInvoked := t.transcribeInvoked,
        judgeInvoked := t.judgeInvoked,
        unlinkVideoAttempted := true, unlinkAudioAttempted := true }
  else
    { response := t.response, videoFileExists := t.videoExists,
      audioFileExists := t.audioExists,
      videoEverCreated := t.videoExists, audioEverCreated := t.audioExists,
      extractInvoked := t.extractInvoked, transcribeInvoked := t.transcribeInvoked,
      judgeInvoked := t.judgeInvoked,
      unlinkVideoAttempted := true, unlinkAudioAttempted := false }

/-- One whole `POST` run: the `try`/`catch` body followed by the
`finally` cleanup. -/
def POST (w : World) : RunResult :=
  runFinally w (runTry w)

/-- A well-formed upload used by the concrete runs below. -/
def okFile : UploadedFile := { name := "clip.mp4", size := 1000, type := "video/mp4" }

/-- A run in which every external step succeeds. -/
def baseWorld : World where
  formData := .ok (some okFile)
  uuid := "job1"
  writeVideo := .ok ()
  extract := .exited 0 ""
  transcribe := .ok "hello world"
  judgeChat := .ok (some "resp")
  jsonParse := fun _ => some ⟨.num 72, .str "good"⟩
  dbError := none
  unlinkVideoOk := true
  unlinkAudioOk := true
  now := "2026-01-01T00:00:00Z"

/-- A run whose upload is exactly the 50 MiB limit. -/
def atLimitWorld : World :=
  { baseWorld with formData := .ok (some { okFile with size := maxSize }) }

/-- A run whose upload is one byte over the 50 MiB limit. -/
def overLimitWorld : World :=
  { baseWorld with formData := .ok (some { okFile with size := maxSize + 1 }) }

/-- A run whose upload declares the MIME type `application/pdf`. -/
def pdfWorld : World :=
  { baseWorld with formData := .ok (some { okFile with type := "application/pdf" }) }

/-- A run whose transcription returns only whitespace. -/
def whitespaceWorld : World := { baseWorld with transcribe := .ok "   " }

/-- A run in which the judging chat call itself rejects. -/
def judgeDownWorld : World := { baseWorld with judgeChat := .error "connect ECONNREFUSED" }

/-- A run in which the Supabase insert reports an error. -/
def dbDownWorld : World := { baseWorld with dbError := some "connection refused" }

/-- A successful run whose video unlink then fails. -/
def unlinkFailWorld : World := { baseWorld with unlinkVideoOk := false }

/-- A second copy of the failing-unlink run, for the skipped-audio-unlink
property. -/
def skipAudioWorld : World := { baseWorld with unlinkVideoOk := false }

example : (POST baseWorld).response.status = 200 := rfl
example : (POST baseWorld).videoFileExists = false := rfl
example : (POST baseWorld).audioFileExists = false := rfl
example :
    (POST baseWorld).response.body =
      .judgment
        { id := "job1", video_filename := "clip.mp4", transcript := "hello world",
          feedback := .str "good", score := 72, created_at := "2026-01-01T00:00:00Z" } := rfl
example :
    (POST { baseWorld with unlinkVideoOk := false }).audioFileExists = true := rfl

lemma append_ne_empty_right (a b : String) (h : b ≠ "") : a ++ b ≠ "" := by
  intro he
  apply h
  have hd := congrArg String.data he
  rw [String.data_append] at hd
  exact String.ext (List.append_eq_nil.mp hd).2

lemma append_ne_empty_left (a b : String) (h : a ≠ "") : a ++ b ≠ "" := by
  intro he
  apply h
  have hd := congrArg String.data he
  rw [String.data_append] at hd
  exact String.ext (List.append_eq_nil.mp hd).1

lemma mid_dot_ne_empty (a b : String) : a ++ "." ++ b ≠ "" :=
  append_ne_empty_left _ _ (append_ne_empty_right _ _ (by decide))

lemma wav_ne_empty (a : String) : a ++ ".wav" ≠ "" :=
  append_ne_empty_right _ _ (by decide)

/-- Structural facts about the `try` body: files are only on disk once
the temp paths have been assigned, and the audio file is only on disk
when the video file is. -/
lemma runTry_paths (w : World) :
    ((runTry w).videoPath = "" → (runTry w).videoExists = false ∧ (runTry w).audioExists = false)
    ∧ ((runTry w).audioPath = "" → (runTry w).audioExists = false)
    ∧ ((runTry w).audioExists = true → (runTry w).videoExists = true) := by
  unfold runTry runSaved
  repeat' split
  all_goals simp [mid_dot_ne_empty, wav_ne_empty]

/-- The `finally` block never changes the response. -/
lemma runFinally_response (w : World) (t : TryResult) :
    (runFinally w t).response = t.response := by
  unfold runFinally
  repeat' split
  all_goals rfl

/-- The `finally` block never changes the invocation trace. -/
lemma runFinally_invoked (w : World) (t : TryResult) :
    (runFinally w t).extractInvoked = t.extractInvoked
    ∧ (runFinally w t).transcribeInvoked = t.transcribeInvoked
    ∧ (runFinally w t).judgeInvoked = t.judgeInvoked
    ∧ (runFinally w t).videoEverCreated = t.videoExists
    ∧ (runFinally w t).audioEverCreated = t.audioExists := by
  unfold runFinally
  repeat' split
  all_goals simp

/-- The `try` body never reads the unlink oracles. -/
lemma runTry_unlink_irrel (w : World) (b1 b2 : Bool) :
    runTry { w with unlinkVideoOk := b1, unlinkAudioOk := b2 } = runTry w := rfl

lemma ffmpegExitMsg_ne_noAudio (code : Int) (stderr : String) :
    ffmpegExitMsg code stderr ≠ noAudioTrackMsg := by
  intro h
  have h1 : ((ffmpegExitMsg code stderr).data).head? = some 'f' := by
    unfold ffmpegExitMsg
    simp only [String.data_append]
    rfl
  rw [h] at h1
  exact absurd h1 (by decide)

/-- C1: the Judge's clamp-and-default policy.  When the completion
content parses as JSON, an in-range integer score is returned
unchanged, 150 clamps to 100, -5 clamps to 1, and a non-numeric score
such as "abc" defaults to 50; when the content does not parse, the
raw content becomes the feedback with score 50; and in every case
`judgeContent` returns a usable pair whose score lies in [1, 100]
without raising a parse error. -/
theorem judgeContent_clamp_default (jsonParse : String → Option ParsedJudge)
    (content : String) :
    (∀ p, jsonParse content = some p →
      ((∀ n : Int, p.score = .num n → 1 ≤ n → n ≤ 100 →
          (judgeContent jsonParse content).score = n)
        ∧ (p.score = .num 150 → (judgeContent jsonParse content).score = 100)
        ∧ (p.score = .num (-5) → (judgeContent jsonParse content).score = 1)
        ∧ (p.score = .str "abc" → (judgeContent jsonParse content).score = 50)))
    ∧ (jsonParse content = none →
        judgeContent jsonParse content = { feedback := .str content, score := 50 })
    ∧ (1 ≤ (judgeContent jsonParse content).score
        ∧ (judgeContent jsonParse content).score ≤ 100) := by
  refine ⟨?_, ?_, ?_⟩
  · intro p hp
    refine ⟨?_, ?_, ?_, ?_⟩
    · intro n hn h1 h100
      have hne : n ≠ 0 := by omega
      simp only [judgeContent, hp, hn, jsParseInt, jsOrInt, clampScore, if_neg hne]
      rw [max_eq_right h1, min_eq_right h100]
    · intro hn
      simp only [judgeContent, hp, hn, jsParseInt, jsOrInt, clampScore]
      decide
    · intro hn
      simp only [judgeContent, hp, hn, jsParseInt, jsOrInt, clampScore]
      decide
    · intro hn
      simp only [judgeContent, hp, hn, jsParseInt, jsParseIntStr, clampScore]
      decide
  · intro hnone
    simp [judgeContent, hnone]
  · unfold judgeContent
    cases hp : jsonParse content with
    | none => exact ⟨by norm_num, by norm_num⟩
    | some p =>
      exact ⟨le_min (by norm_num) (le_max_left 1 _), min_le_left _ _⟩

/-- C1 witness: the policy evaluated at the spec's concrete cases. -/
theorem judgeContent_clamp_default_witness :
    (judgeContent (fun _ => some ⟨.num 72, .str "x"⟩) "c").score = 72
    ∧ (judgeContent (fun _ => some ⟨.num 150, .str "x"⟩) "c").score = 100
    ∧ (judgeContent (fun _ => some ⟨.num (-5), .str "x"⟩) "c").score = 1
    ∧ (judgeContent (fun _ => some ⟨.str "abc", .str "x"⟩) "c").score = 50
    ∧ judgeContent (fun _ => none) "plain text response" =
        { feedback := .str "plain text response", score := 50 } := by
  refine ⟨?_, ?_, ?_, ?_, ?_⟩
  · exact (((judgeContent_clamp_default _ "c").1 _ rfl).1) 72 rfl (by decide) (by decide)
  · exact ((judgeContent_clamp_default _ "c").1 _ rfl).2.1 rfl
  · exact ((judgeContent_clamp_default _ "c").1 _ rfl).2.2.1 rfl
  · exact ((judgeContent_clamp_default _ "c").1 _ rfl).2.2.2 rfl
  · exact (judgeContent_clamp_default _ "plain text response").2.1 rfl

/-- C9: a parsed score that `parseInt` takes to 0 yields score 50 (not
the lower clamp bound 1), because `parseInt(parsed.score) || 50`
treats 0 exactly like a missing score; and a fractional score string
is truncated by `parseInt` before clamping ("72.9" gives 72). -/
theorem judgeContent_zero_score (jsonParse : String → Option ParsedJudge)
    (content : String) (p : ParsedJudge) (hp : jsonParse content = some p) :
    (jsParseInt p.score = some 0 →
      (judgeContent jsonParse content).score = 50
      ∧ judgeContent jsonParse content =
          judgeContent (fun _ => some { p with score := .undef }) content)
    ∧ (p.score = .str "72.9" → (judgeContent jsonParse content).score = 72) := by
  constructor
  · intro hz
    constructor
    · simp [judgeContent, hp, hz, jsOrInt, clampScore]
    · have hu : jsParseInt JVal.undef = none := rfl
      simp [judgeContent, hp, hz, hu, jsOrInt]
  · intro hs
    simp only [judgeContent, hp, hs, jsParseInt, jsParseIntStr, jsOrInt, clampScore]
    decide

/-- C9 witness: score 0 gives 50 and "72.9" gives 72 on concrete runs. -/
theorem judgeContent_zero_score_witness :
    (judgeContent (fun _ => some ⟨.num 0, .str "x"⟩) "c").score = 50
    ∧ (judgeContent (fun _ => some ⟨.str "72.9", .str "x"⟩) "c").score = 72 := by
  constructor
  · exact ((judgeContent_zero_score _ "c" _ rfl).1 (by decide)).1
  · exact (judgeContent_zero_score _ "c" _ rfl).2 rfl

/-- C6: a non-zero ffmpeg exit is classified as the distinguished
no-audio-track condition exactly when the captured stderr contains
the no-audio-stream marker, and otherwise as the generic message
carrying the exit code and the stderr text (never equal to the
no-audio message); a spawn failure surfaces as its own distinct
rejection. -/
theorem extractAudio_classification (code : Int) (stderr spawnMsg : String)
    (h : code ≠ 0) :
    (strIncludes stderr noAudioMarker = true →
      extractAudio (.exited code stderr) = .error noAudioTrackMsg)
    ∧ (strIncludes stderr noAudioMarker = false →
      extractAudio (.exited code stderr) = .error (ffmpegExitMsg code stderr)
      ∧ ffmpegExitMsg code stderr ≠ noAudioTrackMsg)
    ∧ extractAudio (.spawnFail spawnMsg) = .error spawnMsg := by
  refine ⟨?_, ?_, rfl⟩
  · intro hm
    simp [extractAudio, h, hm]
  · intro hm
    exact ⟨by simp [extractAudio, h, hm], ffmpegExitMsg_ne_noAudio code stderr⟩

lemma POST_response (w : World) : (POST w).response = (runTry w).response :=
  runFinally_response w (runTry w)

lemma POST_invoked (w : World) :
    (POST w).extractInvoked = (runTry w).extractInvoked
    ∧ (POST w).transcribeInvoked = (runTry w).transcribeInvoked
    ∧ (POST w).judgeInvoked = (runTry w).judgeInvoked
    ∧ (POST w).videoEverCreated = (runTry w).videoExists
    ∧ (POST w).audioEverCreated = (runTry w).audioExists :=
  runFinally_invoked w (runTry w)

/-- Any run that passes all three validation gates ends in a 200, 422
or 500 response, never a 400. -/
lemma validated_response (w : World) (f : UploadedFile)
    (hf : w.formData = .ok (some f))
    (hsize : ¬ f.size > maxSize)
    (htype : validTypes.contains f.type = true) :
    (POST w).response.status = 200 ∨ (POST w).response.status = 422
      ∨ (POST w).response.status = 500 := by
  have hmem : f.type ∈ validTypes := by simpa using htype
  have h2 : runTry w = runSaved w f := by simp [runTry, hf, hsize, hmem]
  rw [POST_response, h2]
  unfold runSaved catchResponse
  repeat' split
  all_goals simp

/-- C6 witness: the classification at concrete subprocess outcomes. -/
theorem extractAudio_classification_witness :
    extractAudio (.exited 1 "Output file does not contain any stream") =
      .error noAudioTrackMsg
    ∧ extractAudio (.exited 1 "boom") = .error (ffmpegExitMsg 1 "boom")
    ∧ extractAudio (.spawnFail "spawn ffmpeg ENOENT") = .error "spawn ffmpeg ENOENT" := by
  refine ⟨?_, ?_, ?_⟩
  · exact (extractAudio_classification 1 _ "spawn ffmpeg ENOENT" (by decide)).1 (by decide)
  · exact ((extractAudio_classification 1 _ "spawn ffmpeg ENOENT" (by decide)).2.1
      (by decide)).1
  · exact (extractAudio_classification 1 "" _ (by decide)).2.2

/-- C7: a byte size of exactly 50 MiB passes validation into the
pipeline (temp paths are assigned and the response is never a
validation 400), while any size above 50 MiB — in particular
50 MiB + 1 — is rejected with the size 400 before any external call
and before any temp file is created. -/
theorem post_size_gate (w : World) (f : UploadedFile)
    (hf : w.formData = .ok (some f)) :
    (f.size = maxSize → validTypes.contains f.type = true →
      (runTry w).videoPath ≠ "" ∧ (POST w).response.status ≠ 400)
    ∧ (f.size > maxSize →
        (POST w).response =
          { status := 400, body := .errMsg "File too large. Maximum size is 50MB." }
        ∧ (POST w).extractInvoked = false ∧ (POST w).transcribeInvoked = false
        ∧ (POST w).judgeInvoked = false
        ∧ (POST w).videoEverCreated = false ∧ (POST w).audioEverCreated = false) := by
  constructor
  · intro hm htype
    have hsize : ¬ f.size > maxSize := by omega
    have hmem : f.type ∈ validTypes := by simpa using htype
    constructor
    · have h2 : runTry w = runSaved w f := by simp [runTry, hf, hsize, hmem]
      rw [h2]
      simp only [runSaved]
      repeat' split
      all_goals exact mid_dot_ne_empty _ _
    · rcases validated_response w f hf hsize htype with h | h | h <;> omega
  · intro hbig
    refine ⟨?_, ?_, ?_, ?_, ?_, ?_⟩
    · rw [POST_response]; simp [runTry, hf, hbig]
    · rw [(POST_invoked w).1]; simp [runTry, hf, hbig]
    · rw [(POST_invoked w).2.1]; simp [runTry, hf, hbig]
    · rw [(POST_invoked w).2.2.1]; simp [runTry, hf, hbig]
    · rw [(POST_invoked w).2.2.2.1]; simp [runTry, hf, hbig]
    · rw [(POST_invoked w).2.2.2.2]; simp [runTry, hf, hbig]

/-- C7 witness: the gate evaluated at exactly 50 MiB and at
50 MiB + 1 bytes. -/
theorem post_size_gate_witness :
    ((runTry atLimitWorld).videoPath ≠ "" ∧ (POST atLimitWorld).response.status ≠ 400)
    ∧ ((POST overLimitWorld).response =
          { status := 400, body := .errMsg "File too large. Maximum size is 50MB." }
        ∧ (POST overLimitWorld).extractInvoked = false
        ∧ (POST overLimitWorld).transcribeInvoked = false
        ∧ (POST overLimitWorld).judgeInvoked = false
        ∧ (POST overLimitWorld).videoEverCreated = false
        ∧ (POST overLimitWorld).audioEverCreated = false) := by
  constructor
  · exact (post_size_gate atLimitWorld _ rfl).1 rfl (by decide)
  · exact (post_size_gate overLimitWorld _ rfl).2 (by decide)

/-- C8: an upload whose declared MIME type is outside the accepted set
is rejected with a validation 400 (the invalid-type message whenever
the size gate also passes), the extraction subprocess is never
spawned, and no temp file is ever created. -/
theorem post_type_gate (w : World) (f : UploadedFile)
    (hf : w.formData = .ok (some f))
    (htype : validTypes.contains f.type = false) :
    (POST w).response.status = 400
    ∧ (POST w).extractInvoked = false
    ∧ (POST w).videoEverCreated = false
    ∧ (POST w).audioEverCreated = false
    ∧ (¬ f.size > maxSize →
        (POST w).response =
          { status := 400,
            body := .errMsg
              "Invalid file type. Please upload an MP4, WebM, MOV, AVI, or MKV file." }) := by
  by_cases hs : f.size > maxSize
  · refine ⟨?_, ?_, ?_, ?_, fun hc => absurd hs hc⟩
    · rw [POST_response]; simp [runTry, hf, hs]
    · rw [(POST_invoked w).1]; simp [runTry, hf, hs]
    · rw [(POST_invoked w).2.2.2.1]; simp [runTry, hf, hs]
    · rw [(POST_invoked w).2.2.2.2]; simp [runTry, hf, hs]
  · have hmem : f.type ∉ validTypes := by simpa using htype
    refine ⟨?_, ?_, ?_, ?_, fun _ => ?_⟩
    · rw [POST_response]; simp [runTry, hf, hs, hmem]
    · rw [(POST_invoked w).1]; simp [runTry, hf, hs, hmem]
    · rw [(POST_invoked w).2.2.2.1]; simp [runTry, hf, hs, hmem]
    · rw [(POST_invoked w).2.2.2.2]; simp [runTry, hf, hs, hmem]
    · rw [POST_response]; simp [runTry, hf, hs, hmem]

/-- C8 witness: the gate evaluated at a declared `application/pdf`. -/
theorem post_type_gate_witness :
    (POST pdfWorld).response.status = 400
    ∧ (POST pdfWorld).extractInvoked = false
    ∧ (POST pdfWorld).videoEverCreated = false
    ∧ (POST pdfWorld).audioEverCreated = false
    ∧ (POST pdfWorld).response =
        { status := 400,
          body := .errMsg
            "Invalid file type. Please upload an MP4, WebM, MOV, AVI, or MKV file." } := by
  have h := post_type_gate pdfWorld _ rfl (by decide)
  exact ⟨h.1, h.2.1, h.2.2.1, h.2.2.2.1, h.2.2.2.2 (by decide)⟩

/-- Cleanup helper: when both unlink oracles succeed and the `try`
result satisfies the structural path facts, no temp file survives
the `finally` block. -/
lemma runFinally_clean (w : World) (t : TryResult)
    (h1 : w.unlinkVideoOk = true) (h2 : w.unlinkAudioOk = true)
    (hvp : t.videoPath = "" → t.videoExists = false ∧ t.audioExists = false)
    (hap : t.audioPath = "" → t.audioExists = false)
    (hav : t.audioExists = true → t.videoExists = true) :
    (runFinally w t).videoFileExists = false
    ∧ (runFinally w t).audioFileExists = false := by
  constructor
  · unfold runFinally
    split
    · rename_i hpath
      exact (hvp hpath).1
    · split
      · split
        · rfl
        · rfl
      · rename_i hpath hcond
        cases hb : t.videoExists
        · rfl
        · exact absurd (by rw [hb, h1]; rfl) hcond
  · unfold runFinally
    split
    · rename_i hpath
      exact (hvp hpath).2
    · split
      · split
        · rename_i hapath
          exact hap hapath
        · rw [h2]
          simp
      · rename_i hpath hcond
        cases hb : t.audioExists
        · rfl
        · exact absurd (by rw [hav hb, h1]; rfl) hcond

/-- C5: a transcript that is empty or whitespace-only after trimming
aborts the pipeline with the no-speech condition as a 422 response,
and the Content Judge is never invoked for that request. -/
theorem post_no_speech (w : World) (f : UploadedFile) (t : String)
    (hf : w.formData = .ok (some f))
    (hsize : ¬ f.size > maxSize)
    (htype : validTypes.contains f.type = true)
    (hwv : w.writeVideo = .ok ())
    (hex : extractAudio w.extract = .ok ())
    (htr : w.transcribe = .ok t)
    (hempty : jsTrim t = "") :
    (POST w).response = { status := 422, body := .errMsg noSpeechMsg }
    ∧ (POST w).judgeInvoked = false := by
  have hmem : f.type ∈ validTypes := by simpa using htype
  have hcr : catchResponse noSpeechMsg = { status := 422, body := .errMsg noSpeechMsg } := rfl
  constructor
  · rw [POST_response]
    simp [runTry, runSaved, hf, hsize, hmem, hwv, hex, htr, hempty, hcr]
  · rw [(POST_invoked w).2.2.1]
    simp [runTry, runSaved, hf, hsize, hmem, hwv, hex, htr, hempty]

/-- C5 witness: the whitespace-only transcript `"   "` on an otherwise
successful run. -/
theorem post_no_speech_witness :
    (POST whitespaceWorld).response = { status := 422, body := .errMsg noSpeechMsg }
    ∧ (POST whitespaceWorld).judgeInvoked = false :=
  post_no_speech whitespaceWorld okFile "   " rfl (by decide) (by decide) rfl rfl rfl
    (by decide)

/-- C3 counterexample: a run that reaches the Judging step (extraction
and transcription succeeded with non-empty speech, so the judging
call is made) but whose judging chat call rejects at transport level
aborts with a 500 error response instead of returning a judgment. -/
theorem post_judge_transport_aborts :
    (POST judgeDownWorld).judgeInvoked = true
    ∧ (POST judgeDownWorld).transcribeInvoked = true
    ∧ (POST judgeDownWorld).response =
        { status := 500,
          body := .errMsg "Failed to process video: connect ECONNREFUSED" } :=
  ⟨rfl, rfl, rfl⟩

/-- C3 (amended): for every request that reaches the Judging step and
whose judging call returns a completion — whatever its content, even
missing or malformed — the pipeline advances past judging and
returns a 200 judgment to the caller; only a transport-level
rejection of the judging call itself can abort at that step. -/
theorem post_judging_completion_advances (w : World) (f : UploadedFile)
    (t : String) (c : Option String)
    (hf : w.formData = .ok (some f))
    (hsize : ¬ f.size > maxSize)
    (htype : validTypes.contains f.type = true)
    (hwv : w.writeVideo = .ok ())
    (hex : extractAudio w.extract = .ok ())
    (htr : w.transcribe = .ok t)
    (hne : ¬ jsTrim t = "")
    (hjc : w.judgeChat = .ok c) :
    (POST w).judgeInvoked = true
    ∧ (POST w).response =
        { status := 200,
          body := .judgment
            { id := w.uuid, video_filename := f.name, transcript := jsTrim t,
              feedback := (judgeContent w.jsonParse (contentOf c)).feedback,
              score := (judgeContent w.jsonParse (contentOf c)).score,
              created_at := w.now } } := by
  have hmem : f.type ∈ validTypes := by simpa using htype
  cases hdb : w.dbError <;>
    exact ⟨by rw [(POST_invoked w).2.2.1]
              simp [runTry, runSaved, hf, hsize, hmem, hwv, hex, htr, hne, hjc, hdb],
           by rw [POST_response]
              simp [runTry, runSaved, hf, hsize, hmem, hwv, hex, htr, hne, hjc, hdb]⟩

/-- C3 (amended) witness: the fully successful run. -/
theorem post_judging_completion_advances_witness :
    (POST baseWorld).judgeInvoked = true
    ∧ (POST baseWorld).response =
        { status := 200,
          body := .judgment
            { id := "job1", video_filename := "clip.mp4", transcript := "hello world",
              feedback := .str "good", score := 72,
              created_at := "2026-01-01T00:00:00Z" } } :=
  post_judging_completion_advances baseWorld okFile "hello world" (some "resp")
    rfl (by decide) (by decide) rfl rfl rfl (by decide) rfl

/-- C4: when judging has succeeded, a failing durable-storage insert
does not abort the pipeline — the handler still returns the full
judgment record with a 200 status, identical to the response of the
same run with a successful insert. -/
theorem post_persistence_nonfatal (w : World) (f : UploadedFile)
    (t : String) (c : Option String) (e : String)
    (hf : w.formData = .ok (some f))
    (hsize : ¬ f.size > maxSize)
    (htype : validTypes.contains f.type = true)
    (hwv : w.writeVideo = .ok ())
    (hex : extractAudio w.extract = .ok ())
    (htr : w.transcribe = .ok t)
    (hne : ¬ jsTrim t = "")
    (hjc : w.judgeChat = .ok c)
    (hdb : w.dbError = some e) :
    (POST w).response =
      { status := 200,
        body := .judgment
          { id := w.uuid, video_filename := f.name, transcript := jsTrim t,
            feedback := (judgeContent w.jsonParse (contentOf c)).feedback,
            score := (judgeContent w.jsonParse (contentOf c)).score,
            created_at := w.now } }
    ∧ (POST w).response = (POST { w with dbError := none }).response := by
  have hmem : f.type ∈ validTypes := by simpa using htype
  constructor
  · rw [POST_response]
    simp [runTry, runSaved, hf, hsize, hmem, hwv, hex, htr, hne, hjc, hdb]
  · rw [POST_response, POST_response]
    simp [runTry, runSaved, hf, hsize, hmem, hwv, hex, htr, hne, hjc, hdb]

/-- C4 witness: the successful run with a rejected insert. -/
theorem post_persistence_nonfatal_witness :
    (POST dbDownWorld).response =
      { status := 200,
        body := .judgment
          { id := "job1", video_filename := "clip.mp4", transcript := "hello world",
            feedback := .str "good", score := 72,
            created_at := "2026-01-01T00:00:00Z" } }
    ∧ (POST dbDownWorld).response = (POST { dbDownWorld with dbError := none }).response :=
  post_persistence_nonfatal dbDownWorld okFile "hello world" (some "resp")
    "connection refused" rfl (by decide) (by decide) rfl rfl rfl (by decide) rfl rfl

/-- C2 counterexample: in a successful run whose video unlink fails,
both temp files still exist after the handler returns, although the
200 judgment response is returned unchanged. -/
theorem post_cleanup_not_guaranteed :
    (POST unlinkFailWorld).videoFileExists = true
    ∧ (POST unlinkFailWorld).audioFileExists = true
    ∧ (POST unlinkFailWorld).response.status = 200 :=
  ⟨rfl, rfl, rfl⟩

/-- C2 (amended): cleanup is attempted on every exit path with its
failures swallowed — the unlink outcomes never change the handler's
response — and whenever the attempted removals succeed, neither the
video nor the audio temp file exists once the handler returns. -/
theorem post_cleanup_amended (w : World) (b1 b2 : Bool) :
    (POST { w with unlinkVideoOk := b1, unlinkAudioOk := b2 }).response = (POST w).response
    ∧ (w.unlinkVideoOk = true → w.unlinkAudioOk = true →
        (POST w).videoFileExists = false ∧ (POST w).audioFileExists = false) := by
  constructor
  · rw [POST_response, POST_response, runTry_unlink_irrel]
  · intro h1 h2
    obtain ⟨hvp, hap, hav⟩ := runTry_paths w
    exact runFinally_clean w (runTry w) h1 h2 hvp hap hav

/-- C2 (amended) witness: the fully successful run with working
removals. -/
theorem post_cleanup_amended_witness :
    (POST { baseWorld with unlinkVideoOk := true, unlinkAudioOk := true }).response
        = (POST baseWorld).response
    ∧ (POST baseWorld).videoFileExists = false
    ∧ (POST baseWorld).audioFileExists = false := by
  have h := post_cleanup_amended baseWorld true true
  exact ⟨h.1, (h.2 rfl rfl).1, (h.2 rfl rfl).2⟩

/-- C10: the two removals share one try/catch with the video path
unlinked first, so when the video unlink rejects the audio unlink is
never attempted and the audio file's existence is untouched by
cleanup, while the handler's response is still returned unchanged. -/
theorem post_video_unlink_skips_audio (w : World)
    (hv : (runTry w).videoExists = true)
    (hfail : w.unlinkVideoOk = false) :
    (POST w).unlinkAudioAttempted = false
    ∧ (POST w).audioFileExists = (runTry w).audioExists
    ∧ (POST w).response = (runTry w).response := by
  have hpath : ¬ (runTry w).videoPath = "" := by
    intro hp
    have hc := ((runTry_paths w).1 hp).1
    rw [hv] at hc
    cases hc
  have hcond : ¬ ((runTry w).videoExists && w.unlinkVideoOk) = true := by
    rw [hv, hfail]
    simp
  refine ⟨?_, ?_, ?_⟩
  · show (runFinally w (runTry w)).unlinkAudioAttempted = false
    unfold runFinally
    rw [if_neg hpath, if_neg hcond]
  · show (runFinally w (runTry w)).audioFileExists = (runTry w).audioExists
    unfold runFinally
    rw [if_neg hpath, if_neg hcond]
  · show (runFinally w (runTry w)).response = (runTry w).response
    unfold runFinally
    rw [if_neg hpath, if_neg hcond]

/-- C10 witness: the successful run whose video unlink fails leaves the
audio file on disk with no audio unlink attempted and the 200
response intact. -/
theorem post_video_unlink_skips_audio_witness :
    (POST skipAudioWorld).unlinkAudioAttempted = false
    ∧ (POST skipAudioWorld).audioFileExists = true
    ∧ (POST skipAudioWorld).response.status = 200 := by
  have h := post_video_unlink_skips_audio skipAudioWorld rfl rfl
  refine ⟨h.1, ?_, ?_⟩
  · rw [h.2.1]
    rfl
  · rw [h.2.2]
    rfl
